import Mathlib

/-!
Shallow embedding of `src/src/lib.rs` (crate `string_scanner`): a stateful
scanning cursor (`StringScanner`) over an immutable string, together with an
abstraction of the external regex engine that the source consumes through
`regex::Regex::new` and `Regex::captures`.

Modelling conventions:
* The buffer is a `List Char`; offsets are character offsets.  (The Rust code
  uses byte offsets into a UTF-8 `&str`; every claim treated here is about
  character-aligned spans, so character granularity is a faithful unit.)
* `regex::Regex::captures(window)` is abstracted as a `Matcher`: a function
  from the window to the span `(start, end)` of the leftmost match inside the
  window, or `none` when there is no match.  Concrete matchers
  (`litFind`, `anchorLit`, `dotFind`) model concrete pattern shapes
  exactly as the `regex` crate searches them.
* Rust `usize` underflow and out-of-range slicing panic (in debug builds);
  an explicit `Option` layer models the panic exactly where a claim consults
  the panicking computation (`pre_match`, `terminate`, `eos`, and the
  `Regex::new(pattern).unwrap()` call of the scanning operations).
-/

/-- Rust slicing `&l[a..b]`: the elements from offset `a` (inclusive) up to
`b` (exclusive). -/
def strSlice (l : List Char) (a b : Nat) : List Char := (l.drop a).take (b - a)

/-- The scanner state, `struct StringScanner` of the source.  The Rust field
`matched` stores the `regex::Captures` obtained over the window at call time;
the buffer being immutable, that is equivalently the absolute span of the
full match inside the buffer, which is what this field stores. -/
structure StringScanner where
  string : List Char
  position : Nat
  matched : Option (Nat × Nat)
deriving Repr, DecidableEq

/-- The external engine seen through `Regex::captures` on a window: the span
of the leftmost match, with offsets relative to the window. -/
abbrev Matcher := List Char → Option (Nat × Nat)

namespace StringScanner

/-- `StringScanner::new`. -/
def new (s : List Char) : StringScanner := ⟨s, 0, none⟩

/-- The window `&self.string[self.position..]`. -/
def window (sc : StringScanner) : List Char := sc.string.drop sc.position

/-- `StringScanner::check`: runs `captures` on the window, stores the result
in `matched`, returns the text of the full match (`cap.full_match().as_str()`,
a borrowed slice of the window); the position is not touched. -/
def check (find : Matcher) (sc : StringScanner) :
    Option (List Char) × StringScanner :=
  match find (window sc) with
  | none => (none, { sc with matched := none })
  | some (s, e) =>
      (some (strSlice (window sc) s e),
       { sc with matched := some (sc.position + s, sc.position + e) })

/-- `StringScanner::check_until`: like `check` but the returned text is
`&self.string[self.position..info.end()]` — the window-relative end offset
`info.end()` is used as an absolute index into the buffer, exactly as in the
source.  When `info.end() < self.position` that Rust range is reversed and
panics, which the inner `none` models. -/
def check_until (find : Matcher) (sc : StringScanner) :
    Option (Option (List Char)) × StringScanner :=
  match find (window sc) with
  | none => (none, { sc with matched := none })
  | some (s, e) =>
      (some (if sc.position ≤ e
             then some (strSlice sc.string sc.position e)
             else none),
       { sc with matched := some (sc.position + s, sc.position + e) })

/-- `StringScanner::set_position`: stores the new position and clears
`matched`.  The source performs no validation of any kind. -/
def set_position (p : Nat) (sc : StringScanner) : StringScanner :=
  { sc with position := p, matched := none }

/-- `StringScanner::scan`: runs `captures` on the window, stores the result
in `matched`, advances the position by `info.end()` on success, and returns
the text of the full match. -/
def scan (find : Matcher) (sc : StringScanner) :
    Option (List Char) × StringScanner :=
  match find (window sc) with
  | none => (none, { sc with matched := none })
  | some (s, e) =>
      (some (strSlice (window sc) s e),
       { sc with matched := some (sc.position + s, sc.position + e),
                 position := sc.position + e })

/-- `StringScanner::scan_until`: like `scan` but returns
`&self.string[self.position..self.position + info.end()]`, the text from the
window start through the end of the match. -/
def scan_until (find : Matcher) (sc : StringScanner) :
    Option (List Char) × StringScanner :=
  match find (window sc) with
  | none => (none, { sc with matched := none })
  | some (s, e) =>
      (some (strSlice sc.string sc.position (sc.position + e)),
       { sc with matched := some (sc.position + s, sc.position + e),
                 position := sc.position + e })

/-- The matcher compiled from the pattern `"."` used by `getch`: in the
`regex` crate, `.` matches any character except the line feed, and
`captures` reports the leftmost such character. -/
def dotFind : Matcher := fun w =>
  match w.findIdx? (fun c => c != '\n') with
  | some i => some (i, i + 1)
  | none => none

/-- `StringScanner::getch`: literally `self.scan(".")`. -/
def getch (sc : StringScanner) : Option (List Char) × StringScanner :=
  scan dotFind sc

/-- `StringScanner::terminate`: `self.set_position(self.string.len() - 1)`.
`none` models the `usize` underflow (a debug-build panic) of `len() - 1`
when the buffer is empty; the source has no special case for that buffer. -/
def terminate (sc : StringScanner) : Option StringScanner :=
  if sc.string.length = 0 then none
  else some (set_position (sc.string.length - 1) sc)

/-- `StringScanner::eos`: `self.position == self.string.len() - 1`.
`none` models the `usize` underflow of `len() - 1` on the empty buffer;
the source has no special case for that buffer. -/
def eos (sc : StringScanner) : Option Bool :=
  if sc.string.length = 0 then none
  else some (decide (sc.position = sc.string.length - 1))

/-- `StringScanner::matched` (named `matchedText` here only because `matched`
is already the field name): the text of the stored full match. -/
def matchedText (sc : StringScanner) : Option (List Char) :=
  sc.matched.map fun m => strSlice sc.string m.1 m.2

/-- `StringScanner::pre_match`:
`&self.string[..self.position - matched.as_str().len()]`.  The outer `none`
is the source returning `None` (no stored match); the inner `none` models the
`usize` underflow panic that fires when the stored match is longer than the
current position. -/
def pre_match (sc : StringScanner) : Option (Option (List Char)) :=
  sc.matched.map fun m =>
    if m.2 - m.1 ≤ sc.position
    then some (sc.string.take (sc.position - (m.2 - m.1)))
    else none

/-- `StringScanner::post_match`: `&self.string[self.position..]` whenever a
match is stored. -/
def post_match (sc : StringScanner) : Option (List Char) :=
  sc.matched.map fun _ => sc.string.drop sc.position

/-- `StringScanner::subscan`: a fresh scanner over the current window. -/
def subscan (sc : StringScanner) : StringScanner :=
  ⟨sc.string.drop sc.position, 0, none⟩

end StringScanner

/-- A textual pattern as seen through the external engine: whether
`regex::Regex::new` succeeds on its text, and the `captures` search of the
compiled regex. -/
structure Pattern where
  compiles : Bool
  find : Matcher

/-- `regex::Regex::new(pattern)`: a compiled matcher, or a compile error. -/
def Regex.new (p : Pattern) : Except Unit Matcher :=
  if p.compiles then .ok p.find else .error ()

namespace StringScanner

/-- `StringScanner::scan` including its first line
`regex::Regex::new(pattern).unwrap()`: the result `none` models the panic of
`.unwrap()` on a pattern that fails to compile. -/
def scanP (p : Pattern) (sc : StringScanner) :
    Option (Option (List Char) × StringScanner) :=
  match Regex.new p with
  | .error _ => none
  | .ok find => some (scan find sc)

/-- `StringScanner::check` including `regex::Regex::new(pattern).unwrap()`. -/
def checkP (p : Pattern) (sc : StringScanner) :
    Option (Option (List Char) × StringScanner) :=
  match Regex.new p with
  | .error _ => none
  | .ok find => some (check find sc)

/-- `StringScanner::scan_until` including
`regex::Regex::new(pattern).unwrap()`. -/
def scan_untilP (p : Pattern) (sc : StringScanner) :
    Option (Option (List Char) × StringScanner) :=
  match Regex.new p with
  | .error _ => none
  | .ok find => some (scan_until find sc)

/-- `StringScanner::check_until` including
`regex::Regex::new(pattern).unwrap()`. -/
def check_untilP (p : Pattern) (sc : StringScanner) :
    Option (Option (Option (List Char)) × StringScanner) :=
  match Regex.new p with
  | .error _ => none
  | .ok find => some (check_until find sc)

/-- The `captures` search of a literal pattern: the span of its leftmost
occurrence in the searched text. -/
def litFind (pat : List Char) : Matcher := fun w =>
  match (List.range (w.length + 1)).find? (fun i => pat.isPrefixOf (w.drop i)) with
  | some i => some (i, i + pat.length)
  | none => none

/-- The `captures` search of a pattern `^lit`: the `regex` crate evaluates
`^` at the start of the haystack it is handed — which, in this crate, is the
window. -/
def anchorLit (pat : List Char) : Matcher := fun w =>
  if pat.isPrefixOf w then some (0, pat.length) else none

end StringScanner

open StringScanner

/-! ### Shared lemmas -/

/-- `scan_until` leaves the scanner in exactly the state `scan` leaves it in:
the two operations differ only in the text they return. -/
theorem scan_until_state (find : Matcher) (sc : StringScanner) :
    (scan_until find sc).2 = (scan find sc).2 := by
  cases hf : find (window sc) with
  | none => simp [scan, scan_until, hf]
  | some m => obtain ⟨s, e⟩ := m; simp [scan, scan_until, hf]

/-- Splitting a buffer at a span: prefix, span, suffix concatenate back. -/
theorem take_slice_drop (l : List Char) (i j : Nat) (h : i ≤ j) :
    l.take i ++ strSlice l i j ++ l.drop j = l := by
  have hj : i + (j - i) = j := by omega
  calc l.take i ++ strSlice l i j ++ l.drop j
      = l.take (i + (j - i)) ++ l.drop j := by
        rw [List.take_add]; simp [strSlice, List.append_assoc]
    _ = l := by rw [hj, List.take_append_drop]

/-- After a successful `scan`, `pre_match` computes
`position - matched_len = old_position + start`, hence the buffer strictly
before the absolute start of the match. -/
theorem pre_match_scan (find : Matcher) (sc : StringScanner) (s e : Nat)
    (hf : find (window sc) = some (s, e)) (hse : s ≤ e) :
    pre_match (scan find sc).2 = some (some (sc.string.take (sc.position + s))) := by
  simp only [scan, hf, pre_match, Option.map_some']
  have hc : (sc.position + e) - (sc.position + s) ≤ sc.position + e := by omega
  rw [if_pos hc]
  have h2 : sc.position + e - ((sc.position + e) - (sc.position + s)) = sc.position + s := by
    omega
  rw [h2]

/-! ### Claim C1 -/

/-- Claim C1, counterexample: on the buffer "ab", the literal pattern "b"
has its leftmost match beginning at window offset 1, not 0 — yet `scan`
succeeds and returns "b", where the claim requires it to return absent. -/
theorem scan_succeeds_on_later_match :
    litFind "b".data (window (new "ab".data)) = some (1, 2) ∧
    (scan (litFind "b".data) (new "ab".data)).1 = some "b".data ∧
    (scan_until (litFind "b".data) (new "ab".data)).1 = some "ab".data := by
  refine ⟨by decide, by decide, by decide⟩

/-- Claim C1, amended: `scan` and `check` succeed exactly when the pattern
matches anywhere in the window — the same acceptance condition as
`scan_until` and `check_until`; a leftmost match beginning after window
offset 0 is still a success for all four operations. -/
theorem scan_check_accept_anywhere (find : Matcher) (sc : StringScanner) :
    ((scan find sc).1.isSome = (find (window sc)).isSome) ∧
    ((check find sc).1.isSome = (find (window sc)).isSome) ∧
    ((scan_until find sc).1.isSome = (find (window sc)).isSome) ∧
    ((check_until find sc).1.isSome = (find (window sc)).isSome) := by
  cases hf : find (window sc) with
  | none =>
      refine ⟨?_, ?_, ?_, ?_⟩ <;> simp [scan, check, scan_until, check_until, hf]
  | some m =>
      obtain ⟨s, e⟩ := m
      refine ⟨?_, ?_, ?_, ?_⟩ <;> simp [scan, check, scan_until, check_until, hf]

/-! ### Claim C3 -/

/-- Claim C3, counterexample: with a two-character buffer, `set_position 5`
is outside `[0, length(buffer)]`; the claim requires a failure that leaves
the state entirely unchanged, but the source just stores the position (the
scanner state changes, and there is no error). -/
theorem set_position_out_of_range_accepted :
    set_position 5 (new "ab".data) = ⟨"ab".data, 5, none⟩ ∧
    "ab".data.length < 5 := by
  refine ⟨by decide, by decide⟩

/-- Claim C3, amended: `set_position(p)` performs no validation and cannot
fail: for every `p` — in range or not — it stores `p` as the position and
clears `last_match`, even when `p` equals the current position (invalid
positions are only discovered later, when a subsequent operation slices the
buffer). -/
theorem set_position_unvalidated (p : Nat) (sc : StringScanner) :
    (set_position p sc).position = p ∧
    (set_position p sc).matched = none ∧
    (set_position p sc).string = sc.string ∧
    set_position sc.position sc = { sc with matched := none } :=
  ⟨rfl, rfl, rfl, rfl⟩

/-! ### Claim C5 -/

/-- Claim C5: on the empty buffer, both `eos` and `terminate` evaluate
`self.string.len() - 1`, an unsigned subtraction that underflows (a panic in
debug builds); the source has no special case treating the length as 0.
Here `none` is precisely that modelled underflow. -/
theorem eos_terminate_empty_underflow :
    eos (new []) = none ∧ terminate (new []) = none := by
  refine ⟨by decide, by decide⟩

/-! ### Claim C10 -/

/-- Claim C10: when the matcher finds no match in the window, `scan` and
`scan_until` return absent and the only state change is that `matched`
becomes `none`: the position (and the buffer) are left unchanged. -/
theorem failed_scan_frame (find : Matcher) (sc : StringScanner)
    (hf : find (window sc) = none) :
    scan find sc = (none, { sc with matched := none }) ∧
    scan_until find sc = (none, { sc with matched := none }) := by
  constructor <;> simp [scan, scan_until, hf]

/-- Claim C10, witness: the literal pattern "z" does not occur in "ab";
`scan` and `scan_until` fail there and leave the position at 0. -/
theorem failed_scan_frame_witness :
    scan (litFind "z".data) (new "ab".data) = (none, ⟨"ab".data, 0, none⟩) ∧
    scan_until (litFind "z".data) (new "ab".data) = (none, ⟨"ab".data, 0, none⟩) :=
  failed_scan_frame (litFind "z".data) (new "ab".data) (by decide)

/-! ### Claim C2 -/

/-- Claim C2, counterexample: scan "ab" over the buffer "abab" (position
becomes 2), then `check` the same literal — the match is stored with absolute
span `(2, 4)`, so `buffer[..match.start]` is "ab"; but `pre_match` computes
`position - matched_len = 2 - 2 = 0` and returns the empty string instead. -/
theorem pre_match_after_check_wrong :
    ((check (litFind "ab".data)
        ((scan (litFind "ab".data) (new "abab".data)).2)).2).matched
      = some (2, 4) ∧
    ((check (litFind "ab".data)
        ((scan (litFind "ab".data) (new "abab".data)).2)).2).position = 2 ∧
    pre_match ((check (litFind "ab".data)
        ((scan (litFind "ab".data) (new "abab".data)).2)).2)
      = some (some []) ∧
    "abab".data.take 2 = "ab".data ∧
    ([] : List Char) ≠ "ab".data := by
  refine ⟨by decide, by decide, by decide, by decide, by decide⟩

/-- Claim C2, amended: `pre_match` returns
`buffer[..position - matched_len]`.  After a successful `scan` or
`scan_until` — where the position sits at the match end — this is exactly
`buffer[..match.start]` in absolute coordinates; after `check`/`check_until`
the position was not advanced, so the value disagrees with
`buffer[..match.start]` (and the subtraction can underflow).  It is absent
exactly when no match is stored, in particular after any `set_position`. -/
theorem pre_match_after_scan (find : Matcher) (sc : StringScanner) (s e : Nat)
    (hf : find (window sc) = some (s, e)) (hse : s ≤ e) :
    pre_match (scan find sc).2 = some (some (sc.string.take (sc.position + s))) ∧
    pre_match (scan_until find sc).2 = some (some (sc.string.take (sc.position + s))) ∧
    (∀ t : StringScanner, t.matched = none → pre_match t = none) ∧
    (∀ p, pre_match (set_position p sc) = none) := by
  refine ⟨pre_match_scan find sc s e hf hse, ?_, ?_, ?_⟩
  · rw [scan_until_state]; exact pre_match_scan find sc s e hf hse
  · intro t ht; simp [pre_match, ht]
  · intro p; simp [pre_match, set_position]

/-- Claim C2, witness: scanning the literal "b" over "abc" matches at
absolute span `(1, 2)`, and `pre_match` afterwards is "a" = `buffer[..1]`. -/
theorem pre_match_after_scan_witness :
    pre_match (scan (litFind "b".data) (new "abc".data)).2
      = some (some "a".data) :=
  (pre_match_after_scan (litFind "b".data) (new "abc".data) 1 2
    (by decide) (by decide)).1

/-! ### Claim C4 -/

/-- A pattern whose text `regex::Regex::new` rejects. -/
def badPattern : Pattern := ⟨false, fun _ => none⟩

/-- Claim C4, counterexample: with a pattern that does not compile, every
scanning operation — `scan`, `check`, `scan_until`, `check_until` — hits
`Regex::new(pattern).unwrap()`, which panics — modelled by `none` — instead
of propagating a pattern error to the caller as a value. -/
theorem scanP_invalid_pattern_panics :
    scanP badPattern (new "abc".data) = none ∧
    checkP badPattern (new "abc".data) = none ∧
    scan_untilP badPattern (new "abc".data) = none ∧
    check_untilP badPattern (new "abc".data) = none := by
  refine ⟨by decide, by decide, by decide, by decide⟩

/-- Claim C4, amended: every scanning operation calls
`regex::Regex::new(pattern).unwrap()`, so a malformed pattern causes a panic
(a process failure, not an error value returned to the caller); when the
pattern compiles the operation never fails this way, and a no-match outcome
is the normal absent result, never an error. -/
theorem pattern_error_panics (p : Pattern) (sc : StringScanner) :
    (p.compiles = true →
        scanP p sc = some (scan p.find sc) ∧
        checkP p sc = some (check p.find sc) ∧
        scan_untilP p sc = some (scan_until p.find sc) ∧
        check_untilP p sc = some (check_until p.find sc)) ∧
    (p.compiles = false →
        scanP p sc = none ∧ checkP p sc = none ∧
        scan_untilP p sc = none ∧ check_untilP p sc = none) ∧
    (p.compiles = true → p.find (window sc) = none →
        scanP p sc = some (none, { sc with matched := none }) ∧
        checkP p sc = some (none, { sc with matched := none }) ∧
        scan_untilP p sc = some (none, { sc with matched := none }) ∧
        check_untilP p sc = some (none, { sc with matched := none })) := by
  refine ⟨?_, ?_, ?_⟩
  · intro h
    refine ⟨?_, ?_, ?_, ?_⟩ <;>
      simp [scanP, checkP, scan_untilP, check_untilP, Regex.new, h]
  · intro h
    refine ⟨?_, ?_, ?_, ?_⟩ <;>
      simp [scanP, checkP, scan_untilP, check_untilP, Regex.new, h]
  · intro h hf
    refine ⟨?_, ?_, ?_, ?_⟩ <;>
      simp [scanP, checkP, scan_untilP, check_untilP, Regex.new, h,
            scan, check, scan_until, check_until, hf]

/-- Claim C4, witness: a compiling literal pattern with no occurrence in the
buffer gives the normal absent result, wrapped in `some` (no panic). -/
theorem pattern_error_panics_witness :
    scanP ⟨true, litFind "z".data⟩ (new "ab".data)
      = some (none, ⟨"ab".data, 0, none⟩) ∧
    checkP ⟨true, litFind "z".data⟩ (new "ab".data)
      = some (none, ⟨"ab".data, 0, none⟩) ∧
    scan_untilP ⟨true, litFind "z".data⟩ (new "ab".data)
      = some (none, ⟨"ab".data, 0, none⟩) ∧
    check_untilP ⟨true, litFind "z".data⟩ (new "ab".data)
      = some (none, ⟨"ab".data, 0, none⟩) :=
  (pattern_error_panics ⟨true, litFind "z".data⟩ (new "ab".data)).2.2
    rfl (by decide)

/-! ### Claim C6 -/

/-- Claim C6, counterexample: on the buffer consisting of one line feed the
position 0 is not at the end, yet `getch` fails (the regex `.` does not
match a line feed) and consumes nothing; and on the buffer `"\na"` `getch`
returns the single character "a" but advances the position by 2, skipping
the line feed — not by the width of the returned character. -/
theorem getch_newline_fails :
    (new ['\n']).position < (new ['\n']).string.length ∧
    (getch (new ['\n'])).1 = none ∧
    (getch (new ['\n'])).2.position = 0 ∧
    (getch (new ('\n' :: "a".data))).1 = some "a".data ∧
    (getch (new ('\n' :: "a".data))).2.position = 2 := by
  refine ⟨by decide, by decide, by decide, by decide, by decide⟩

/-- Claim C6, amended: `getch` is literally `scan(".")`, and `.` matches the
leftmost character other than a line feed: when the window has such a
character, `getch` returns exactly that one character and advances the
position just past it (skipping any line feeds before it); when the window
is empty or holds only line feeds — in particular at the end of the
buffer — it fails and the position is unchanged. -/
theorem getch_via_dot (sc : StringScanner) :
    getch sc = scan dotFind sc ∧
    (∀ i, (window sc).findIdx? (fun c => c != '\n') = some i →
        (getch sc).1 = some (((window sc).drop i).take 1) ∧
        (getch sc).2.position = sc.position + (i + 1)) ∧
    ((window sc).findIdx? (fun c => c != '\n') = none →
        getch sc = (none, { sc with matched := none })) := by
  refine ⟨rfl, ?_, ?_⟩
  · intro i hi
    have hf : dotFind (window sc) = some (i, i + 1) := by simp [dotFind, hi]
    constructor
    · simp [getch, scan, hf, strSlice, Nat.add_sub_cancel_left]
    · simp [getch, scan, hf]
  · intro hn
    have hf : dotFind (window sc) = none := by simp [dotFind, hn]
    simp [getch, scan, hf]

/-- Claim C6, witness: on "ab" the first character is not a line feed, so
`getch` returns "a" and advances the position to 1. -/
theorem getch_via_dot_witness :
    (getch (new "ab".data)).1 = some "a".data ∧
    (getch (new "ab".data)).2.position = 1 :=
  (getch_via_dot (new "ab".data)).2.1 0 (by decide)

/-! ### Claim C7 -/

/-- Claim C7, counterexample: scan "a" over "abc" (position 1), then `check`
the literal "c": the stored match has absolute span `(2, 3)` but the
position stays 1, so `pre_match` is "" and `post_match` is "bc"; the
concatenation is "cbc", not the buffer "abc". -/
theorem reconstruction_fails_after_check :
    pre_match ((check (litFind "c".data)
        ((scan (litFind "a".data) (new "abc".data)).2)).2) = some (some []) ∧
    matchedText ((check (litFind "c".data)
        ((scan (litFind "a".data) (new "abc".data)).2)).2) = some "c".data ∧
    post_match ((check (litFind "c".data)
        ((scan (litFind "a".data) (new "abc".data)).2)).2) = some "bc".data ∧
    ([] : List Char) ++ "c".data ++ "bc".data = "cbc".data ∧
    "cbc".data ≠ "abc".data := by
  refine ⟨by decide, by decide, by decide, by decide, by decide⟩

/-- Claim C7, amended: after every successful `scan` — and `scan_until`,
which leaves the very same state — `pre_match`, `matched` and `post_match`
are the prefix before the match, the match, and the suffix after it, and
their concatenation reconstructs exactly the whole buffer; after a
successful `check`/`check_until` the position was not advanced and the
reconstruction fails in general. -/
theorem reconstruction_after_scan (find : Matcher) (sc : StringScanner)
    (s e : Nat) (hf : find (window sc) = some (s, e)) (hse : s ≤ e) :
    (scan_until find sc).2 = (scan find sc).2 ∧
    pre_match (scan find sc).2 = some (some (sc.string.take (sc.position + s))) ∧
    matchedText (scan find sc).2
      = some (strSlice sc.string (sc.position + s) (sc.position + e)) ∧
    post_match (scan find sc).2 = some (sc.string.drop (sc.position + e)) ∧
    sc.string.take (sc.position + s)
      ++ strSlice sc.string (sc.position + s) (sc.position + e)
      ++ sc.string.drop (sc.position + e) = sc.string := by
  refine ⟨scan_until_state find sc, pre_match_scan find sc s e hf hse, ?_, ?_, ?_⟩
  · simp [scan, hf, matchedText]
  · simp [scan, hf, post_match]
  · exact take_slice_drop sc.string (sc.position + s) (sc.position + e) (by omega)

/-- Claim C7, witness: scanning the literal "b" over "abc" yields
`pre_match` "a", `matched` "b", `post_match` "c", which concatenate back to
the buffer "abc". -/
theorem reconstruction_after_scan_witness :
    (scan_until (litFind "b".data) (new "abc".data)).2
      = (scan (litFind "b".data) (new "abc".data)).2 ∧
    pre_match (scan (litFind "b".data) (new "abc".data)).2
      = some (some "a".data) ∧
    matchedText (scan (litFind "b".data) (new "abc".data)).2
      = some "b".data ∧
    post_match (scan (litFind "b".data) (new "abc".data)).2
      = some "c".data ∧
    "a".data ++ "b".data ++ "c".data = "abc".data :=
  reconstruction_after_scan (litFind "b".data) (new "abc".data) 1 2
    (by decide) (by decide)

/-! ### Claim C8 -/

/-- Claim C8: after a successful `scan` or `scan_until` the position equals
the absolute end offset of the stored match (`old position + info.end()`),
while `check` and `check_until` leave the position unchanged whether they
succeed or fail. -/
theorem positions_after_ops (find : Matcher) (sc : StringScanner) :
    (∀ s e, find (window sc) = some (s, e) →
        (scan find sc).2.position = sc.position + e ∧
        (scan find sc).2.matched = some (sc.position + s, sc.position + e) ∧
        (scan_until find sc).2.position = sc.position + e) ∧
    (check find sc).2.position = sc.position ∧
    (check_until find sc).2.position = sc.position := by
  refine ⟨?_, ?_, ?_⟩
  · intro s e hf
    refine ⟨?_, ?_, ?_⟩ <;> simp [scan, scan_until, hf]
  · cases hf : find (window sc) with
    | none => simp [check, hf]
    | some m => obtain ⟨s, e⟩ := m; simp [check, hf]
  · cases hf : find (window sc) with
    | none => simp [check_until, hf]
    | some m => obtain ⟨s, e⟩ := m; simp [check_until, hf]

/-- Claim C8, witness: scanning the literal "b" over "abc" stores the match
span `(1, 2)` and moves the position to its absolute end 2; `check` with the
same pattern leaves the position at 0. -/
theorem positions_after_ops_witness :
    ((scan (litFind "b".data) (new "abc".data)).2.position = 2 ∧
     (scan (litFind "b".data) (new "abc".data)).2.matched = some (1, 2) ∧
     (scan_until (litFind "b".data) (new "abc".data)).2.position = 2) ∧
    (check (litFind "b".data) (new "abc".data)).2.position = 0 :=
  ⟨(positions_after_ops (litFind "b".data) (new "abc".data)).1 1 2 (by decide),
   (positions_after_ops (litFind "b".data) (new "abc".data)).2.1⟩

/-! ### Claim C9 -/

/-- Claim C9: a start-of-input anchored pattern (modelled by `anchorLit`,
the search the regex crate performs for `^lit` on the haystack it is given —
here always the window `buffer[position..]`) succeeds exactly when the
literal starts at window offset 0, i.e. at the current scan position, even
when that position is positive; only window offset 0 satisfies the anchor,
and on success the match is stored at the current absolute position. -/
theorem anchor_window_relative (sc : StringScanner) (pat : List Char) :
    ((scan (anchorLit pat) sc).1.isSome = pat.isPrefixOf (window sc)) ∧
    (∀ s e, anchorLit pat (window sc) = some (s, e) → s = 0) ∧
    (pat.isPrefixOf (window sc) = true →
        (scan (anchorLit pat) sc).1 = some (strSlice (window sc) 0 pat.length) ∧
        (scan (anchorLit pat) sc).2.matched
          = some (sc.position, sc.position + pat.length) ∧
        (scan (anchorLit pat) sc).2.position = sc.position + pat.length) := by
  refine ⟨?_, ?_, ?_⟩
  · cases h : pat.isPrefixOf (window sc) with
    | true =>
        have hf : anchorLit pat (window sc) = some (0, pat.length) := by
          simp [anchorLit, h]
        simp [scan, hf]
    | false =>
        have hf : anchorLit pat (window sc) = none := by simp [anchorLit, h]
        simp [scan, hf]
  · intro s e h
    simp only [anchorLit] at h
    split_ifs at h with hp
    simp only [Option.some.injEq, Prod.mk.injEq] at h
    exact h.1.symm
  · intro h
    have hf : anchorLit pat (window sc) = some (0, pat.length) := by
      simp [anchorLit, h]
    refine ⟨?_, ?_, ?_⟩ <;> simp [scan, hf]

/-- Claim C9, witness: at position 1 of "ab" (so k = 1 > 0) the anchored
literal "b" matches at the window start: `scan` returns "b" and stores the
absolute span `(1, 2)`. -/
theorem anchor_window_relative_witness :
    (scan (anchorLit "b".data) (set_position 1 (new "ab".data))).1
      = some "b".data ∧
    (scan (anchorLit "b".data) (set_position 1 (new "ab".data))).2.matched
      = some (1, 2) ∧
    (scan (anchorLit "b".data) (set_position 1 (new "ab".data))).2.position
      = 2 :=
  (anchor_window_relative (set_position 1 (new "ab".data)) "b".data).2.2
    (by decide)
